import Mathlib

/-!
Shallow embedding of the concurrency-control core and the page layer of the
transactional lock table crate (sources under src/src/), together with proofs
about the claims of its specification.

Clocks (`S::Clock`) are embedded as `Nat`; the distinguished values
`S::invalid()` and `S::Clock::default()` are passed explicitly as parameters
`inv` and `dflt`, so every theorem holds for any concrete sequencer choice.
Rust `usize` values (transaction-local clocks) are embedded as `Nat`, with
`usize::MAX` as the explicit constant `usizeMax`.

Atomic code is embedded sequentially: each modelled operation is one step on an
explicit state, taken in the absence of interference, with every successful
compare-and-set resolved in program order.  A cross-transaction conflict makes
`VersionLocker::lock` block on the owner's condition variable; the sequential
model reports that case as `LockOutcome.blocked` rather than resolving it.
-/

namespace Tss

/-- `usize::MAX` (the `submit_clock` of a journal anchor that has not been
submitted, src/src/journal.rs line 137). -/
def usizeMax : Nat := 2 ^ 64 - 1

/-- The fields of `journal::Anchor` consulted by the locking protocol
(src/src/journal.rs lines 120-140): the identity of the `transaction_anchor`
pointer (embedded as a `Nat` identifier), `creation_clock`, and `submit_clock`
(`usize::MAX` while the journal is unsubmitted). -/
structure JournalAnchor where
  txn : Nat
  creation_clock : Nat
  submit_clock : Nat
  deriving DecidableEq, Repr

/-- `Anchor::lockable` (src/src/journal.rs lines 149-157): `self` is the anchor
currently owning the version cell, `journal_anchor` the requester.  Different
transactions give `(false, false)`; the same transaction gives
`(true, self.submit_clock <= journal_anchor.creation_clock)`. -/
def JournalAnchor.lockable (self journal_anchor : JournalAnchor) : Bool × Bool :=
  if self.txn ≠ journal_anchor.txn then (false, false)
  else (true, decide (self.submit_clock ≤ journal_anchor.creation_clock))

/-- The resting state of a `VersionCell` (src/src/version.rs lines 42-63):
`owner_ptr` is `none` for the null pointer and `some a` when journal anchor `a`
owns the cell; the transient `locked_state` sentinel never persists across the
sequential steps modelled here.  `time_point` starts as `S::invalid()`. -/
structure VersionCell where
  owner_ptr : Option Nat
  time_point : Nat
  deriving DecidableEq, Repr

/-- `VersionLocker` (src/src/version.rs lines 154-159): the back pointer to the
cell is kept implicit (the state the locker is released against is passed to
`release`); `prev_owner_ptr` is the owner value observed at acquisition. -/
structure VersionLocker where
  prev_owner_ptr : Option Nat
  deriving DecidableEq, Repr

/-- The sequential outcome of `VersionLocker::lock`: `acquired` returns
`Some(VersionLocker)`, `refused` returns `None`, and `blocked` marks the
cross-transaction path that waits on the owner's condition variable
(src/src/version.rs lines 211-239), which has no sequential resolution. -/
inductive LockOutcome where
  | acquired (locker : VersionLocker)
  | refused
  | blocked
  deriving DecidableEq, Repr

/-- `VersionLocker::lock` (src/src/version.rs lines 163-264) as one sequential
step.  `anchors` resolves anchor identifiers to their data; `req` is the
requesting journal anchor.  In program order without interference: the initial
`time_point` check (line 168), the CAS null -> locked (line 175, immediately
followed by the re-check at line 247 against an unchanged `time_point` and the
final swap to `req` at line 255, recording the previous owner), the
same-anchor refusal (line 186), the `lockable` inspection with deadlock
refusal or ownership takeover (lines 190-209), and the cross-transaction wait
(lines 211-239) reported as `blocked`. -/
def VersionLocker.lock (inv : Nat) (anchors : Nat → JournalAnchor)
    (cell : VersionCell) (req : Nat) : LockOutcome × VersionCell :=
  if cell.time_point ≠ inv then (.refused, cell)
  else
    match cell.owner_ptr with
    | none => (.acquired ⟨none⟩, { cell with owner_ptr := some req })
    | some cur =>
      if cur = req then (.refused, cell)
      else
        let sl := JournalAnchor.lockable (anchors cur) (anchors req)
        if sl.1 then
          if sl.2 then (.acquired ⟨some cur⟩, { cell with owner_ptr := some req })
          else (.refused, cell)
        else (.blocked, cell)

/-- `VersionLocker::release` (src/src/version.rs lines 267-284): when the final
`snapshot` clock is valid it is stored into `time_point` (line 275); the owner
is then compare-and-set from the releasing anchor back to the previous owner
(line 277). -/
def VersionLocker.release (inv : Nat) (locker : VersionLocker)
    (cell : VersionCell) (journal_anchor : Nat) (snapshot : Nat) : VersionCell :=
  let c1 := if snapshot ≠ inv then { cell with time_point := snapshot } else cell
  if c1.owner_ptr = some journal_anchor then
    { c1 with owner_ptr := locker.prev_owner_ptr }
  else c1

/-- The two snapshot fields of `transaction::Anchor` that
`journal::Anchor::visible` reads (src/src/journal.rs lines 242-258); both start
as `S::Clock::default()`, `preliminary_snapshot` is set at pre-commit and
`final_snapshot` at commit (it stays `default` on rollback). -/
structure TransactionAnchor where
  preliminary_snapshot : Nat
  final_snapshot : Nat
  deriving DecidableEq, Repr

/-- `Anchor::visible` (src/src/journal.rs lines 242-259).  `ta` is the state of
the owning anchor's `transaction_anchor` when the function starts; the
condition-variable wait at line 251 is modelled by `final_after_wait`, the
value `final_snapshot` holds once the anchor has ended (when no wait happens,
the re-read at line 254 observes the unchanged pre-wait value). -/
def Anchor.visible (dflt : Nat) (ta : TransactionAnchor)
    (final_after_wait : Nat) (snapshot : Nat) : Bool × Nat :=
  if ta.preliminary_snapshot = dflt ∨ snapshot ≤ ta.preliminary_snapshot then
    (false, dflt)
  else
    let fin := if ta.final_snapshot = dflt then final_after_wait else ta.final_snapshot
    (decide (fin ≠ dflt) && decide (fin ≤ snapshot), fin)

/-- `VersionCell::predate` (src/src/version.rs lines 84-116) as one sequential
step: the two `time_point` loads coincide and the owner re-check at line 106
observes the same owner.  `snap_owns` models `snapshot.visible(anchor, guard)`
at line 101, the snapshot's own transaction/journal context (snapshot.rs is not
among the sources); `owner_ta` and `owner_final_after_wait` supply the
transaction state `Anchor::visible` consults for each owning anchor. -/
def VersionCell.predate (inv dflt : Nat) (cell : VersionCell)
    (snap_owns : Nat → Bool) (owner_ta : Nat → TransactionAnchor)
    (owner_final_after_wait : Nat → Nat) (clock : Nat) : Bool :=
  if cell.time_point ≠ inv then decide (cell.time_point ≤ clock)
  else
    match cell.owner_ptr with
    | some o =>
      if snap_owns o then true
      else (Anchor.visible dflt (owner_ta o) (owner_final_after_wait o) clock).1
    | none => decide (cell.time_point ≠ inv) && decide (cell.time_point ≤ clock)

/-- A versioned object as `DefaultVersionedObject` holds it
(src/src/version.rs lines 287-314): an atomic, possibly null, pointer to its
`VersionCell`. -/
structure VersionedObject where
  version_cell : Option VersionCell
  deriving DecidableEq, Repr

/-- The `Version::predate` trait default (src/src/version.rs lines 18-26): a
null `version_cell` pointer means the object has been fully consolidated and
the version predates every snapshot; otherwise `VersionCell::predate`
decides. -/
def VersionedObject.predate (inv dflt : Nat) (obj : VersionedObject)
    (snap_owns : Nat → Bool) (owner_ta : Nat → TransactionAnchor)
    (owner_final_after_wait : Nat → Nat) (clock : Nat) : Bool :=
  match obj.version_cell with
  | none => true
  | some cell =>
    VersionCell.predate inv dflt cell snap_owns owner_ta owner_final_after_wait clock

/-- `DefaultVersionedObject::unversion` (src/src/version.rs lines 308-313):
swap the cell pointer to null, returning whether it was non-null. -/
def VersionedObject.unversion (obj : VersionedObject) : Bool × VersionedObject :=
  (obj.version_cell.isSome, ⟨none⟩)

/-- The error value `Journal::create` returns on failure: the expression
`Error::Fail` at src/src/journal.rs line 101.  No variant of that name is
declared in src/src/error.rs, so it is embedded as its own type in order to
state exactly what the function returns. -/
inductive JournalError where
  | Fail
  deriving DecidableEq, Repr

/-- One record of a journal's `RecordData` as `Journal::create` appends it
(src/src/journal.rs line 95): the acquired locker and the optional payload
(the versioned-object reference is the object `create` was called on). -/
structure RecordEntry where
  locker : VersionLocker
  payload : Option Nat
  deriving DecidableEq, Repr

/-- `Journal::create` (src/src/journal.rs lines 86-102): a null version-cell
pointer yields `Err(Error::Fail)` (line 101); an acquired lock records
`(version, locker, payload)` and yields `Ok` (lines 94-97); a refused lock
also yields `Err(Error::Fail)`.  A cross-transaction conflict blocks inside
the lock call; `none` marks that no sequential result exists then. -/
def Journal.create (inv : Nat) (anchors : Nat → JournalAnchor)
    (obj : VersionedObject) (self_anchor : Nat) (payload : Option Nat)
    (records : List RecordEntry) :
    Option (Except JournalError (List RecordEntry) × VersionedObject) :=
  match obj.version_cell with
  | none => some (.error .Fail, obj)
  | some cell =>
    match VersionLocker.lock inv anchors cell self_anchor with
    | (.acquired lk, cell1) =>
      some (.ok (records ++ [⟨lk, payload⟩]), ⟨some cell1⟩)
    | (.refused, cell1) => some (.error .Fail, ⟨some cell1⟩)
    | (.blocked, _) => none

/-- The crate's error enum, exactly as src/src/error.rs lines 7-19 declares
it: `Conflict`, `Deadlock`, `OutOfMemory`, `Timeout`. -/
inductive Error where
  | Conflict
  | Deadlock
  | OutOfMemory
  | Timeout
  deriving DecidableEq, Fintype, Repr

/-- An `EvictablePage` as the page manager observes it: buffer bytes (each a
byte value) and the dirty flag.  Modelled from the spec: evictable_page.rs is
not among the sources; the spec's data model gives a page "buffer bytes; dirty
flag". -/
structure EvictablePage where
  buffer : List Nat
  is_dirty : Bool
  deriving DecidableEq, Repr

/-- The error values the page layer surfaces.  page_manager.rs returns
`Error::UnexpectedState`, a variant absent from src/src/error.rs (the two
files stem from different states of the crate); `ioFail` stands for the error
values produced by `EvictablePage::from_file` and `write_back`, whose sources
are not included. -/
inductive PageError where
  | UnexpectedState
  | ioFail
  deriving DecidableEq, Repr

/-- The backing database file: page contents by address, plus the set of
addresses at which a `write_back` fails.  Modelled from the spec: the backing
file is an external collaborator offering random-access page reads and
writes. -/
structure FileModel where
  pages : List (Nat × EvictablePage)
  write_fails : List Nat
  deriving DecidableEq, Repr

/-- The page cache (`scc::HashCache<Address, EvictablePage>`,
page_manager.rs line 30).  The hash cache is an external dependency; it is
modelled as an association list in insertion order with a capacity, and its
(unspecified, sampling-based) eviction policy is abstracted as: the oldest
entry is evicted when an insertion finds the cache full. -/
structure PageCache where
  entries : List (Nat × EvictablePage)
  capacity : Nat
  deriving DecidableEq, Repr

/-- The state `PageManager` (page_manager.rs lines 22-34) carries that the
modelled operations touch: the database file and the page cache. -/
structure PageManagerState where
  db : FileModel
  page_cache : PageCache
  deriving DecidableEq, Repr

/-- Replaces the value stored under key `k` (used for `OccupiedEntry`
updates: the key is already present). -/
def assocPut (l : List (Nat × EvictablePage)) (k : Nat) (v : EvictablePage) :
    List (Nat × EvictablePage) :=
  l.map (fun kv => if kv.1 = k then (k, v) else kv)

/-- Stores `v` under key `k`, replacing an existing binding or appending a new
one (used for file writes). -/
def assocStore (l : List (Nat × EvictablePage)) (k : Nat) (v : EvictablePage) :
    List (Nat × EvictablePage) :=
  match l with
  | [] => [(k, v)]
  | kv :: rest => if kv.1 = k then (k, v) :: rest else kv :: assocStore rest k v

/-- `VacantEntry::put_entry` of the hash cache: inserts `(k, v)`; when the
cache is full the oldest entry is evicted and returned together with the
occupied entry for `k` (the eviction choice abstracts the external cache's
policy). -/
def PageCache.putEntry (c : PageCache) (k : Nat) (v : EvictablePage) :
    Option (Nat × EvictablePage) × PageCache :=
  if c.entries.length < c.capacity then
    (none, { c with entries := c.entries ++ [(k, v)] })
  else
    match c.entries with
    | [] => (none, { c with entries := [(k, v)] })
    | e :: rest => (some e, { c with entries := rest ++ [(k, v)] })

/-- `EvictablePage::from_file` (modelled from the spec: its source is not
included): reads the page stored at `addr`, clean; a missing page is a read
failure. -/
def EvictablePage.from_file (db : FileModel) (addr : Nat) :
    Except PageError EvictablePage :=
  match db.pages.lookup addr with
  | some p => .ok { p with is_dirty := false }
  | none => .error .ioFail

/-- `EvictablePage::write_back` (modelled from the spec: its source is not
included): writes the page buffer to the file at `addr`, clearing the dirty
flag; addresses in `write_fails` fail. -/
def EvictablePage.write_back (db : FileModel) (addr : Nat) (p : EvictablePage) :
    Except PageError FileModel :=
  if addr ∈ db.write_fails then .error .ioFail
  else .ok { db with pages := assocStore db.pages addr { p with is_dirty := false } }

/-- `PageManager::read_page` (page_manager.rs lines 105-135), with the reader
returning the page it is shown.  A cache hit (the `read_async` fast path or
the occupied entry) returns the resident page.  On a miss the page is loaded
from the file and inserted; when the insertion evicts an entry, the evicted
page is written back to `page_address` (line 126 passes `page_address`, not
the evicted key), and on write-back failure `inserted.put(evicted)` (line
128) stores the evicted page under `page_address` before the error is
returned — the evicted key itself was already dropped at line 125. -/
def PageManager.read_page (st : PageManagerState) (addr : Nat) :
    Except PageError EvictablePage × PageManagerState :=
  match st.page_cache.entries.lookup addr with
  | some p => (.ok p, st)
  | none =>
    match EvictablePage.from_file st.db addr with
    | .error e => (.error e, st)
    | .ok loaded =>
      match st.page_cache.putEntry addr loaded with
      | (none, cache1) => (.ok loaded, { st with page_cache := cache1 })
      | (some ev, cache1) =>
        match EvictablePage.write_back st.db addr ev.2 with
        | .error e =>
          (.error e,
            { st with
              page_cache := { cache1 with entries := assocPut cache1.entries addr ev.2 } })
        | .ok db1 => (.ok loaded, { db := db1, page_cache := cache1 })

/-- `PageManager::write_page` (page_manager.rs lines 143-164): like the read
slow path, but the writer is applied to the (resident or loaded) page and may
modify it; the eviction and write-back handling is line-for-line the same as
in `read_page` (lines 151-160). -/
def PageManager.write_page {R : Type} (st : PageManagerState) (addr : Nat)
    (writer : EvictablePage → R × EvictablePage) :
    Except PageError R × PageManagerState :=
  match st.page_cache.entries.lookup addr with
  | some p =>
    (.ok (writer p).1,
      { st with
        page_cache :=
          { st.page_cache with
            entries := assocPut st.page_cache.entries addr (writer p).2 } })
  | none =>
    match EvictablePage.from_file st.db addr with
    | .error e => (.error e, st)
    | .ok loaded =>
      match st.page_cache.putEntry addr loaded with
      | (none, cache1) =>
        (.ok (writer loaded).1,
          { st with
            page_cache := { cache1 with entries := assocPut cache1.entries addr (writer loaded).2 } })
      | (some ev, cache1) =>
        match EvictablePage.write_back st.db addr ev.2 with
        | .error e =>
          (.error e,
            { st with
              page_cache := { cache1 with entries := assocPut cache1.entries addr ev.2 } })
        | .ok db1 =>
          (.ok (writer loaded).1,
            { db := db1,
              page_cache := { cache1 with entries := assocPut cache1.entries addr (writer loaded).2 } })

/-- `PageManager::delete_page` (page_manager.rs lines 93-97): unimplemented;
it returns `Err(Error::UnexpectedState)` without touching any state. -/
def PageManager.delete_page (st : PageManagerState) (_page_address : Nat) :
    Except PageError Nat × PageManagerState :=
  (.error .UnexpectedState, st)

/-- `u8::trailing_ones` restricted to the 8 bits of a byte, written as the
chain of bit tests it amounts to (equal to the count of consecutive set bits
from bit 0; for a byte value at most 8). -/
def trailingOnes8 (d : Nat) : Nat :=
  if ¬ d.testBit 0 then 0
  else if ¬ d.testBit 1 then 1
  else if ¬ d.testBit 2 then 2
  else if ¬ d.testBit 3 then 3
  else if ¬ d.testBit 4 then 4
  else if ¬ d.testBit 5 then 5
  else if ¬ d.testBit 6 then 6
  else if ¬ d.testBit 7 then 7
  else 8

/-- The free-slot scan of the directory buffer (page_manager.rs lines 71-78):
the first byte with a clear bit gets that bit set (`*d |= 1 << free_index`)
and the slot index `offset * 8 + free_index` is returned with the updated
buffer; `none` when every byte is full. -/
def findFreeSlot : List Nat → Nat → Option (Nat × List Nat)
  | [], _ => none
  | d :: rest, off =>
    let ti := trailingOnes8 d
    if ti < 8 then some (off * 8 + ti, (d ||| 2 ^ ti) :: rest)
    else
      match findFreeSlot rest (off + 1) with
      | some il => some (il.1, d :: il.2)
      | none => none

/-- `EvictablePage::is_first_bit_set`.  Modelled from the spec:
evictable_page.rs is not among the sources; "the first bit of a directory page
being set marks the segment as deleted". -/
def EvictablePage.is_first_bit_set (p : EvictablePage) : Bool :=
  match p.buffer with
  | [] => false
  | d :: _ => d.testBit 0

/-- The closure `create_page` passes to `write_page` (page_manager.rs lines
66-80): a deleted segment yields 0; otherwise the first clear directory bit is
set, the page is marked dirty, and the slot index is returned; 0 when the
scan finds no free byte. -/
def createPageDirWriter (p : EvictablePage) : Nat × EvictablePage :=
  if p.is_first_bit_set then (0, p)
  else
    match findFreeSlot p.buffer 0 with
    | some ib => (ib.1, { buffer := ib.2, is_dirty := true })
    | none => (0, p)

/-- `Address::segment_address`.  Modelled from the spec: addressing.rs is not
among the sources; a packed address decomposes into
`(segment_address, offset_within_segment)`, the segment address being the
address of the segment's first (directory) page, with `segSize` pages per
segment. -/
def segment_address (segSize addr : Nat) : Nat :=
  addr - addr % segSize

/-- The outcome of `PageManager::create_page`: `ok` would carry an allocated
slot, `err` an error; `unimplemented` marks the `todo!()` at page_manager.rs
line 86 reached when the closure result is nonzero. -/
inductive CreatePageOutcome where
  | ok (slot : Nat)
  | err (e : PageError)
  | unimplemented
  deriving DecidableEq, Repr

/-- `PageManager::create_page` (page_manager.rs lines 57-88): runs the
free-slot closure through `write_page` on the segment's directory page (the
`_writer` argument is unused in the source); a closure result of 0 yields
`Err(Error::UnexpectedState)` (line 84), any other result reaches the
`todo!()` at line 86. -/
def PageManager.create_page (segSize : Nat) (st : PageManagerState)
    (known_address : Nat)
    (_writer : Nat → EvictablePage → Nat × EvictablePage) :
    CreatePageOutcome × PageManagerState :=
  match PageManager.write_page st (segment_address segSize known_address) createPageDirWriter with
  | (.error e, st1) => (.err e, st1)
  | (.ok r, st1) =>
    if r = 0 then (.err .UnexpectedState, st1)
    else (.unimplemented, st1)

/-- Concrete page-manager state for the eviction scenario: a capacity-1 cache
holding the dirty page `[9]` at address 1; the file holds clean pages at
addresses 1 and 2, and writes to address 2 fail. -/
def c5State : PageManagerState :=
  { db := { pages := [(1, ⟨[0], false⟩), (2, ⟨[5], false⟩)], write_fails := [2] },
    page_cache := { entries := [(1, ⟨[9], true⟩)], capacity := 1 } }

/-- The journal-anchor environment for the `Journal::create` refusal scenario. -/
def c6Anchors : Nat → JournalAnchor := fun _ => ⟨0, 0, usizeMax⟩

/-- Journal anchors for the same-transaction takeover scenarios: anchor 1 of
transaction 10 created at clock 5; anchor 2 of transaction 10 submitted at
clock 3; anchor 3 of transaction 10 unsubmitted; anchor 4 of transaction 10
created at clock 0; anchor 5 of transaction 99. -/
def c3Anchors : Nat → JournalAnchor := fun i =>
  if i = 1 then ⟨10, 5, usizeMax⟩
  else if i = 2 then ⟨10, 0, 3⟩
  else if i = 3 then ⟨10, 7, usizeMax⟩
  else if i = 4 then ⟨10, 0, usizeMax⟩
  else ⟨99, 0, 0⟩

/-- Concrete page-manager state whose cache holds the (empty, all-slots-free)
directory page of segment 0. -/
def c7State : PageManagerState :=
  { db := { pages := [], write_fails := [] },
    page_cache := { entries := [(0, ⟨[0, 0], false⟩)], capacity := 4 } }

/-- A version cell whose `time_point` is not set, preventing any further lock. -/
theorem lock_refused_of_time_point_ne (inv : Nat) (anchors : Nat → JournalAnchor)
    (cell : VersionCell) (req : Nat) (h : cell.time_point ≠ inv) :
    VersionLocker.lock inv anchors cell req = (.refused, cell) := by
  unfold VersionLocker.lock
  rw [if_pos h]

/-- The directory closure of `create_page` always reports slot 0: a deleted
segment reports 0 directly; a non-deleted directory has bit 0 of its first
byte clear (that very bit is the deleted flag), so the scan sets bit 0 of byte
0 and reports `0 * 8 + 0`; an empty buffer also reports 0. -/
theorem createPageDirWriter_fst (p : EvictablePage) :
    (createPageDirWriter p).1 = 0 := by
  unfold createPageDirWriter
  cases hb : p.buffer with
  | nil =>
    simp [EvictablePage.is_first_bit_set, hb, findFreeSlot]
  | cons d rest =>
    cases h0 : d.testBit 0 with
    | true => simp [EvictablePage.is_first_bit_set, hb, h0]
    | false =>
      have ht : trailingOnes8 d = 0 := by simp [trailingOnes8, h0]
      simp [EvictablePage.is_first_bit_set, hb, h0, findFreeSlot, ht]

/-- Running the directory closure through `write_page` either succeeds with
result 0 or fails with an I/O error; no other result is possible. -/
theorem write_page_dir_writer_ok_zero_or_error (st : PageManagerState) (seg : Nat) :
    (PageManager.write_page st seg createPageDirWriter).1 = .ok 0 ∨
    ∃ e, (PageManager.write_page st seg createPageDirWriter).1 = .error e := by
  unfold PageManager.write_page
  split
  · exact Or.inl (by rw [createPageDirWriter_fst])
  · split
    · exact Or.inr ⟨_, rfl⟩
    · split
      · exact Or.inl (by rw [createPageDirWriter_fst])
      · split
        · exact Or.inr ⟨_, rfl⟩
        · exact Or.inl (by rw [createPageDirWriter_fst])

/-- When the segment directory page is resident, `write_page` applied to the
directory closure returns result 0. -/
theorem write_page_dir_writer_resident (st : PageManagerState) (seg : Nat)
    (p : EvictablePage) (h : st.page_cache.entries.lookup seg = some p) :
    (PageManager.write_page st seg createPageDirWriter).1 = .ok 0 := by
  unfold PageManager.write_page
  rw [h]
  simp [createPageDirWriter_fst]

/-- C2: if `lock(c, a)` succeeds and the locker is then released with a valid
(non-invalid) clock `v`, the cell's `time_point` equals `v`; every subsequent
`lock` call, by any anchor, returns `None` and leaves the cell — hence its
`time_point` — unchanged, and so does any sequence of such calls. -/
theorem lock_release_pins_time_point
    (inv v : Nat) (anchors : Nat → JournalAnchor)
    (cell cell1 : VersionCell) (lk : VersionLocker) (a : Nat)
    (_hlock : VersionLocker.lock inv anchors cell a = (.acquired lk, cell1))
    (hv : v ≠ inv) :
    (VersionLocker.release inv lk cell1 a v).time_point = v ∧
    (∀ a2, VersionLocker.lock inv anchors (VersionLocker.release inv lk cell1 a v) a2 =
      (.refused, VersionLocker.release inv lk cell1 a v)) ∧
    (∀ l : List Nat,
      l.foldl (fun c a2 => (VersionLocker.lock inv anchors c a2).2)
        (VersionLocker.release inv lk cell1 a v) =
      VersionLocker.release inv lk cell1 a v) := by
  have htp : (VersionLocker.release inv lk cell1 a v).time_point = v := by
    unfold VersionLocker.release
    by_cases h : cell1.owner_ptr = some a <;> simp [hv, h]
  have hne : (VersionLocker.release inv lk cell1 a v).time_point ≠ inv := by
    rw [htp]; exact hv
  refine ⟨htp, fun a2 => lock_refused_of_time_point_ne inv anchors _ a2 hne, ?_⟩
  intro l
  induction l with
  | nil => rfl
  | cons a2 tl ih =>
    have hstep := lock_refused_of_time_point_ne inv anchors
      (VersionLocker.release inv lk cell1 a v) a2 hne
    simpa [List.foldl, hstep] using ih

/-- C2 witness: a concrete run with `inv = 0`: locking the fresh cell by
anchor 1 succeeds, releasing with clock 5 pins `time_point` at 5, and anchor
2's subsequent lock is refused. -/
theorem lock_release_pins_time_point_witness :
    (VersionLocker.release 0 ⟨none⟩ ⟨some 1, 0⟩ 1 5).time_point = 5 ∧
    VersionLocker.lock 0 c6Anchors (VersionLocker.release 0 ⟨none⟩ ⟨some 1, 0⟩ 1 5) 2 =
      (.refused, VersionLocker.release 0 ⟨none⟩ ⟨some 1, 0⟩ 1 5) := by
  have h := lock_release_pins_time_point 0 5 c6Anchors ⟨none, 0⟩ ⟨some 1, 0⟩ ⟨none⟩ 1
    (by decide) (by decide)
  exact ⟨h.1, h.2.1 2⟩

/-- C3: when `lock` finds the cell owned by a different journal anchor `b` of
the same transaction as requester `a`: if `b.submit_clock <= a.creation_clock`
then `lockable` returns `(true, true)` and the lock takes over ownership and
returns `Some` with `b` recorded as previous owner; if `b` is unsubmitted
(`submit_clock = usize::MAX`, with `a.creation_clock` a real clock below it)
then `lockable` returns `(true, false)` and the lock returns `None`
immediately without blocking; for anchors of different transactions,
`lockable` returns `(false, false)`. -/
theorem lockable_same_transaction_spec
    (inv : Nat) (anchors : Nat → JournalAnchor) (cell : VersionCell)
    (a b : Nat) (hown : cell.owner_ptr = some b) (htp : cell.time_point = inv)
    (hba : b ≠ a) :
    ((anchors b).txn = (anchors a).txn →
      (anchors b).submit_clock ≤ (anchors a).creation_clock →
        JournalAnchor.lockable (anchors b) (anchors a) = (true, true) ∧
        VersionLocker.lock inv anchors cell a =
          (.acquired ⟨some b⟩, { cell with owner_ptr := some a })) ∧
    ((anchors b).txn = (anchors a).txn →
      (anchors b).submit_clock = usizeMax →
      (anchors a).creation_clock < usizeMax →
        JournalAnchor.lockable (anchors b) (anchors a) = (true, false) ∧
        VersionLocker.lock inv anchors cell a = (.refused, cell)) ∧
    ((anchors b).txn ≠ (anchors a).txn →
      JournalAnchor.lockable (anchors b) (anchors a) = (false, false)) := by
  refine ⟨?_, ?_, ?_⟩
  · intro h1 h2
    have hl : JournalAnchor.lockable (anchors b) (anchors a) = (true, true) := by
      simp [JournalAnchor.lockable, h1, h2]
    refine ⟨hl, ?_⟩
    unfold VersionLocker.lock
    rw [if_neg (by rw [htp]; exact fun h => h rfl)]
    rw [hown]
    simp [hba, hl]
  · intro h1 h2 h3
    have hns : ¬ (anchors b).submit_clock ≤ (anchors a).creation_clock := by
      rw [h2]; exact not_le.mpr h3
    have hl : JournalAnchor.lockable (anchors b) (anchors a) = (true, false) := by
      simp [JournalAnchor.lockable, h1, hns]
    refine ⟨hl, ?_⟩
    unfold VersionLocker.lock
    rw [if_neg (by rw [htp]; exact fun h => h rfl)]
    rw [hown]
    simp [hba, hl]
  · intro h1
    simp [JournalAnchor.lockable, h1]

/-- C3 witness: with anchors 2 (owner, transaction 10, submitted at clock 3)
and 1 (requester, transaction 10, created at clock 5), lock takes over; with
owner anchor 3 (unsubmitted, same transaction) and requester 4
(creation clock 0), lock is refused; owner anchor 5 belongs to transaction
99, so `lockable` against requester 1 is `(false, false)`. -/
theorem lockable_same_transaction_spec_witness :
    (JournalAnchor.lockable (c3Anchors 2) (c3Anchors 1) = (true, true) ∧
      VersionLocker.lock 0 c3Anchors ⟨some 2, 0⟩ 1 =
        (.acquired ⟨some 2⟩, ⟨some 1, 0⟩)) ∧
    (JournalAnchor.lockable (c3Anchors 3) (c3Anchors 4) = (true, false) ∧
      VersionLocker.lock 0 c3Anchors ⟨some 3, 0⟩ 4 = (.refused, ⟨some 3, 0⟩)) ∧
    JournalAnchor.lockable (c3Anchors 5) (c3Anchors 1) = (false, false) := by
  refine ⟨?_, ?_, ?_⟩
  · exact (lockable_same_transaction_spec 0 c3Anchors ⟨some 2, 0⟩ 1 2 rfl rfl
      (by decide)).1 (by decide) (by decide)
  · exact (lockable_same_transaction_spec 0 c3Anchors ⟨some 3, 0⟩ 4 3 rfl rfl
      (by decide)).2.1 (by decide) (by decide) (by decide)
  · exact (lockable_same_transaction_spec 0 c3Anchors ⟨some 5, 0⟩ 1 5 rfl rfl
      (by decide)).2.2 (by decide)

/-- C4: `Anchor::visible(c)` returns false when the owning transaction's
`preliminary_snapshot` equals `default` or is at least `c`; otherwise it
returns exactly whether the final snapshot (the post-wait value when the
pre-wait `final_snapshot` was still `default`) differs from `default` and is
at most `c`; a rolled-back owner (whose `final_snapshot` stays `default`) is
never visible; and `VersionCell::predate` consults `visible` verbatim when the
cell has no time point and its owner is not the reader's own context. -/
theorem anchor_visible_spec
    (dflt : Nat) (ta : TransactionAnchor) (fw c : Nat)
    (inv : Nat) (cell : VersionCell) (snap_owns : Nat → Bool)
    (owner_ta : Nat → TransactionAnchor) (ofw : Nat → Nat) (o : Nat) :
    (ta.preliminary_snapshot = dflt ∨ c ≤ ta.preliminary_snapshot →
      Anchor.visible dflt ta fw c = (false, dflt)) ∧
    (¬ (ta.preliminary_snapshot = dflt ∨ c ≤ ta.preliminary_snapshot) →
      Anchor.visible dflt ta fw c =
        (decide ((if ta.final_snapshot = dflt then fw else ta.final_snapshot) ≠ dflt) &&
          decide ((if ta.final_snapshot = dflt then fw else ta.final_snapshot) ≤ c),
         if ta.final_snapshot = dflt then fw else ta.final_snapshot)) ∧
    (ta.final_snapshot = dflt → fw = dflt → (Anchor.visible dflt ta fw c).1 = false) ∧
    (cell.time_point = inv → cell.owner_ptr = some o → snap_owns o = false →
      VersionCell.predate inv dflt cell snap_owns owner_ta ofw c =
        (Anchor.visible dflt (owner_ta o) (ofw o) c).1) := by
  refine ⟨?_, ?_, ?_, ?_⟩
  · intro h
    unfold Anchor.visible
    rw [if_pos h]
  · intro h
    unfold Anchor.visible
    rw [if_neg h]
  · intro h1 h2
    unfold Anchor.visible
    by_cases h : ta.preliminary_snapshot = dflt ∨ c ≤ ta.preliminary_snapshot
    · rw [if_pos h]
    · rw [if_neg h]
      simp [h1, h2]
  · intro h1 h2 h3
    unfold VersionCell.predate
    rw [if_neg (by rw [h1]; exact fun h => h rfl)]
    rw [h2]
    simp [h3]

/-- C4 witness: with `default = 0`, a pre-commit snapshot of 0 (or one at or
above the reader clock) is invisible; an owner with preliminary snapshot 5 and
post-wait final snapshot 3 is visible at clock 10; a rolled-back owner is
invisible; and `predate` on a cell owned by anchor 1 equals `visible` of that
anchor's transaction state. -/
theorem anchor_visible_spec_witness :
    Anchor.visible 0 ⟨0, 7⟩ 3 10 = (false, 0) ∧
    Anchor.visible 0 ⟨5, 0⟩ 3 10 = (true, 3) ∧
    (Anchor.visible 0 ⟨5, 0⟩ 0 10).1 = false ∧
    VersionCell.predate 0 0 ⟨some 1, 0⟩ (fun _ => false) (fun _ => ⟨5, 0⟩) (fun _ => 3) 10 =
      (Anchor.visible 0 ⟨5, 0⟩ 3 10).1 := by
  refine ⟨?_, ?_, ?_, ?_⟩
  · exact (anchor_visible_spec 0 ⟨0, 7⟩ 3 10 0 ⟨some 1, 0⟩ (fun _ => false)
      (fun _ => ⟨5, 0⟩) (fun _ => 3) 1).1 (Or.inl rfl)
  · have h := (anchor_visible_spec 0 ⟨5, 0⟩ 3 10 0 ⟨some 1, 0⟩ (fun _ => false)
      (fun _ => ⟨5, 0⟩) (fun _ => 3) 1).2.1 (by decide)
    rw [h]; rfl
  · exact (anchor_visible_spec 0 ⟨5, 0⟩ 0 10 0 ⟨some 1, 0⟩ (fun _ => false)
      (fun _ => ⟨5, 0⟩) (fun _ => 0) 1).2.2.1 rfl rfl
  · exact (anchor_visible_spec 0 ⟨5, 0⟩ 3 10 0 ⟨some 1, 0⟩ (fun _ => false)
      (fun _ => ⟨5, 0⟩) (fun _ => 3) 1).2.2.2 rfl rfl rfl

/-- C5: at the concrete state `c5State` (capacity-1 cache holding the dirty
page `[9]` at address 1, writes to address 2 failing), `read_page 2` evicts
the dirty page, its write-back fails and the error is returned — but the
evicted page is not reinstated at its own address 1 (its key is gone from the
cache) and the insertion at address 2 is not reverted (address 2 now holds the
evicted page's bytes `[9]`); a subsequent `read_page 1` reloads the clean
file copy `[0]` instead of observing the dirty contents `[9]`. -/
theorem read_page_failed_write_back_loses_dirty_page :
    (PageManager.read_page c5State 2).1 = .error .ioFail ∧
    (PageManager.read_page c5State 2).2.page_cache.entries.lookup 1 = none ∧
    (PageManager.read_page c5State 2).2.page_cache.entries.lookup 2 = some ⟨[9], true⟩ ∧
    (PageManager.read_page ((PageManager.read_page c5State 2).2) 1).1 = .ok ⟨[0], false⟩ :=
  ⟨rfl, rfl, rfl, rfl⟩

/-- C6: at a concrete state whose version cell already carries `time_point`
7 (with `invalid = 0`), the lock is refused and `Journal::create` returns
`Err(Error::Fail)` — the literal error expression of journal.rs line 101 — and
not the `Conflict` variant the crate's error enum declares for conflicts. -/
theorem journal_create_refusal_returns_fail :
    Journal.create 0 c6Anchors ⟨some ⟨none, 7⟩⟩ 1 none [] =
      some (.error JournalError.Fail, ⟨some ⟨none, 7⟩⟩) := rfl

/-- C7 counterexample: segment 0's directory page `[0, 0]` is resident, the
segment is not deleted and the directory is not exhausted (a free slot
exists — byte 0 has clear bits), yet `create_page` returns
`Err(Error::UnexpectedState)` and not the allocated slot index. -/
theorem create_page_free_slot_yields_unexpected_state :
    EvictablePage.is_first_bit_set ⟨[0, 0], false⟩ = false ∧
    trailingOnes8 0 < 8 ∧
    (PageManager.create_page 4 c7State 2 (fun _ p => (0, p))).1 = .err .UnexpectedState ∧
    (PageManager.create_page 4 c7State 2 (fun _ p => (0, p))).1 ≠ .ok 0 := by
  refine ⟨rfl, by decide, rfl, ?_⟩
  intro h
  exact CreatePageOutcome.noConfusion h

/-- C7 amended: `create_page` never returns an allocated slot index: every
call produces an error (the nonzero-slot continuation is the unimplemented
`todo!()`, and the closure in fact always reports slot 0, which line 84 maps
to `Err(Error::UnexpectedState)`); in particular with the directory page
resident the result is exactly `UnexpectedState`; and the free-slot scan
never overwrites an allocated slot — the bit it sets is clear beforehand. -/
theorem create_page_never_returns_slot
    (segSize : Nat) (st : PageManagerState) (known_address : Nat)
    (w : Nat → EvictablePage → Nat × EvictablePage) :
    (∃ e, (PageManager.create_page segSize st known_address w).1 = .err e) ∧
    (∀ p, st.page_cache.entries.lookup (segment_address segSize known_address) = some p →
      (PageManager.create_page segSize st known_address w).1 = .err .UnexpectedState) ∧
    (∀ d, trailingOnes8 d < 8 → d.testBit (trailingOnes8 d) = false) := by
  refine ⟨?_, ?_, ?_⟩
  · rcases hw : PageManager.write_page st (segment_address segSize known_address)
        createPageDirWriter with ⟨res, st1⟩
    rcases write_page_dir_writer_ok_zero_or_error st (segment_address segSize known_address)
      with h | ⟨e, h⟩ <;> rw [hw] at h <;> simp only at h <;> subst h <;>
      unfold PageManager.create_page <;> rw [hw]
    · exact ⟨.UnexpectedState, rfl⟩
    · exact ⟨e, rfl⟩
  · intro p hp
    have h := write_page_dir_writer_resident st (segment_address segSize known_address) p hp
    rcases hw : PageManager.write_page st (segment_address segSize known_address)
        createPageDirWriter with ⟨res, st1⟩
    rw [hw] at h
    simp only at h
    subst h
    unfold PageManager.create_page
    rw [hw]
    rfl
  · intro d hlt
    unfold trailingOnes8 at hlt ⊢
    split_ifs at hlt ⊢ with h0 h1 h2 h3 h4 h5 h6 h7 <;> simp_all

/-- C7 amended witness: at the concrete resident-directory state, the call
returns `UnexpectedState`; and the bit the scan would set for byte value 3 is
clear. -/
theorem create_page_never_returns_slot_witness :
    (PageManager.create_page 4 c7State 2 (fun _ p => (0, p))).1 = .err .UnexpectedState ∧
    Nat.testBit 3 (trailingOnes8 3) = false := by
  refine ⟨(create_page_never_returns_slot 4 c7State 2 (fun _ p => (0, p))).2.1
    ⟨[0, 0], false⟩ rfl, ?_⟩
  exact (create_page_never_returns_slot 4 c7State 2 (fun _ p => (0, p))).2.2 3 (by decide)

/-- C8 counterexample: the crate's error enum does not contain five mutually
distinct values, so it cannot consist of the five variants `Conflict`,
`Deadlock`, `OutOfMemory`, `Timeout` and `UnexpectedState` the claim lists. -/
theorem error_no_five_distinct_variants :
    ¬ ∃ a b c d e : Error,
      a ≠ b ∧ a ≠ c ∧ a ≠ d ∧ a ≠ e ∧ b ≠ c ∧ b ≠ d ∧ b ≠ e ∧ c ≠ d ∧ c ≠ e ∧ d ≠ e := by
  decide

/-- C8 amended: the error type consists of exactly the four variants
`Conflict`, `Deadlock`, `OutOfMemory` and `Timeout` — every value is one of
these, they are pairwise distinct, and the type has cardinality 4; there is
no `UnexpectedState` variant. -/
theorem error_variants_exactly_four :
    (∀ e : Error, e = .Conflict ∨ e = .Deadlock ∨ e = .OutOfMemory ∨ e = .Timeout) ∧
    ((Error.Conflict ≠ .Deadlock ∧ Error.Conflict ≠ .OutOfMemory ∧
        Error.Conflict ≠ .Timeout) ∧
      Error.Deadlock ≠ .OutOfMemory ∧ Error.Deadlock ≠ .Timeout ∧
      Error.OutOfMemory ≠ .Timeout) ∧
    Fintype.card Error = 4 := by
  refine ⟨by decide, by decide, ?_⟩
  decide

/-- C9: a versioned object whose version-cell pointer is null predates every
snapshot, and after `unversion` the object's `predate` is true for every
snapshot clock and reader context. -/
theorem predate_true_of_null_cell
    (inv dflt : Nat) (snap_owns : Nat → Bool) (owner_ta : Nat → TransactionAnchor)
    (ofw : Nat → Nat) (c : Nat) (obj : VersionedObject) :
    VersionedObject.predate inv dflt ⟨none⟩ snap_owns owner_ta ofw c = true ∧
    VersionedObject.predate inv dflt obj.unversion.2 snap_owns owner_ta ofw c = true :=
  ⟨rfl, rfl⟩

/-- C10: `delete_page` unconditionally returns `Err(Error::UnexpectedState)`
and leaves the whole page-manager state — cache and file alike — unchanged. -/
theorem delete_page_unexpected_state (st : PageManagerState) (page_address : Nat) :
    PageManager.delete_page st page_address = (.error .UnexpectedState, st) := rfl

end Tss
